import Mathlib

/-!
# go-u2fhost: the U2F "Authenticate" message codec

A shallow embedding of `authenticate.go` (`authenticateRequest`,
`authenticateResponse`, `HidDevice.Authenticate`) together with the
encoding primitives it consumes, followed by theorems about the codec.

Conventions of the embedding:

* a Go `[]byte` is a `List Nat` whose elements are below 256 (`wfBytes`);
  a `nil` slice and an empty slice are both `[]`;
* a Go `string` is an immutable byte sequence, so it shares the model of
  `[]byte` and the conversions `[]byte(s)` / `string(b)` are the identity;
* a Go `error` is an `Option GoError`, `none` being `nil`;
* a Go function with several results returns a tuple;
* a run-time panic is the `Exec.panics` outcome.
-/

namespace U2fhost

/-! ## Bytes, strings, errors, outcomes -/

/-- A Go byte slice. -/
abbrev Bytes := List Nat

/-- A Go string: an immutable sequence of bytes. -/
abbrev GoString := List Nat

/-- Every element is a byte value. -/
def wfBytes (bs : List Nat) : Prop := ∀ b ∈ bs, b < 256

instance (bs : List Nat) : Decidable (wfBytes bs) := by
  unfold wfBytes; infer_instance

/-- The bytes of an ASCII string literal. -/
def str (s : String) : GoString := s.toList.map Char.toNat

/-- Go error values that occur in the codec.  `corruptInput` is
`base64.CorruptInputError` (the byte offset it carries is not modelled),
`errorf format arg` is the value of `fmt.Errorf(format, arg)` for a format
with a single `%s` verb, `other` is any other error value, identified by
its text. -/
inductive GoError where
  | corruptInput : GoError
  | errorf (format : GoString) (arg : GoError) : GoError
  | other (text : GoString) : GoError
  deriving DecidableEq, Repr

/-- Outcome of running a Go function body: it returns a value or the
goroutine panics. -/
inductive Exec (α : Type) where
  | panics : Exec α
  | returns (v : α) : Exec α
  deriving DecidableEq, Repr

/-! ## encoding/base64 -/

/-- The alphabet of the standard encoding (`encodeStd` in encoding/base64). -/
def encodeStd : List Nat :=
  str "ABCDEFGHIJKLMNOPQRSTUVWXYZabcdefghijklmnopqrstuvwxyz0123456789+/"

/-- The alphabet of the URL-safe encoding (`encodeURL` in encoding/base64). -/
def encodeURL : List Nat :=
  str "ABCDEFGHIJKLMNOPQRSTUVWXYZabcdefghijklmnopqrstuvwxyz0123456789-_"

/-- A base64 encoding: its 64-character alphabet and its padding character,
`none` standing for `NoPadding`. -/
structure Encoding where
  encode : List Nat
  padChar : Option Nat

/-- Modelled from the spec: standard base64 (`base64.StdEncoding`, padded
with `=`). -/
def StdEncoding : Encoding := ⟨encodeStd, some 61⟩

/-- Modelled from the spec: URL-safe base64 without padding
(`base64.RawURLEncoding`). -/
def RawURLEncoding : Encoding := ⟨encodeURL, none⟩

/-- The character of a 6-bit value. -/
def Encoding.enc (e : Encoding) (v : Nat) : Nat := e.encode.getD v 65

/-- The 6-bit value of a character, `none` for a character outside the
alphabet (`decodeMap`, whose invalid entries are `0xff`). -/
def Encoding.decodeMap (e : Encoding) (c : Nat) : Option Nat :=
  let i := e.encode.indexOf c
  if i < 64 then some i else none

/-- The padding that closes a final quantum of `n` missing characters. -/
def Encoding.padding (e : Encoding) (n : Nat) : List Nat :=
  match e.padChar with
  | some p => List.replicate n p
  | none => []

/-- `Encoding.EncodeToString`: each 3 bytes give 4 characters; a remainder
of 1 or 2 bytes gives 2 or 3 characters followed by the padding. -/
def Encoding.EncodeToString (e : Encoding) : Bytes → GoString
  | a :: b :: c :: rest =>
      let val := a * 65536 + b * 256 + c
      e.enc (val / 262144 % 64) :: e.enc (val / 4096 % 64) ::
        e.enc (val / 64 % 64) :: e.enc (val % 64) :: e.EncodeToString rest
  | [a, b] =>
      let val := a * 65536 + b * 256
      e.enc (val / 262144 % 64) :: e.enc (val / 4096 % 64) ::
        e.enc (val / 64 % 64) :: e.padding 1
  | [a] =>
      let val := a * 65536
      e.enc (val / 262144 % 64) :: e.enc (val / 4096 % 64) :: e.padding 2
  | [] => []

/-- The bytes of a quantum of `n` six-bit values (`n` is 2, 3 or 4):
`val` is the 24-bit group, of which the first `n - 1` bytes are kept. -/
def quantumBytes (val n : Nat) : Bytes :=
  ([val / 65536 % 256, val / 256 % 256, val % 256]).take (n - 1)

/-- The quanta of `Encoding.Decode` on an input without line breaks:
groups of 4 characters give 3 bytes; the input may end in a group of 2 or
3 characters (unpadded encodings) or in a group closed by padding (padded
encodings); trailing bits are not checked (the encodings are not strict).
`none` is a `CorruptInputError`. -/
def Encoding.decodeQuanta (e : Encoding) : List Nat → Option Bytes
  | [] => some []
  | [_] => none
  | [c0, c1] =>
      match e.padChar, e.decodeMap c0, e.decodeMap c1 with
      | none, some v0, some v1 => some (quantumBytes (v0 * 262144 + v1 * 4096) 2)
      | _, _, _ => none
  | [c0, c1, c2] =>
      match e.padChar, e.decodeMap c0, e.decodeMap c1, e.decodeMap c2 with
      | none, some v0, some v1, some v2 =>
          some (quantumBytes (v0 * 262144 + v1 * 4096 + v2 * 64) 3)
      | _, _, _, _ => none
  | c0 :: c1 :: c2 :: c3 :: rest =>
      match e.decodeMap c0, e.decodeMap c1 with
      | some v0, some v1 =>
          match e.decodeMap c2 with
          | some v2 =>
              match e.decodeMap c3 with
              | some v3 =>
                  (e.decodeQuanta rest).map
                    (fun t => quantumBytes (v0 * 262144 + v1 * 4096 + v2 * 64 + v3) 4 ++ t)
              | none =>
                  if some c3 = e.padChar ∧ rest = [] then
                    some (quantumBytes (v0 * 262144 + v1 * 4096 + v2 * 64) 3)
                  else none
          | none =>
              if some c2 = e.padChar ∧ some c3 = e.padChar ∧ rest = [] then
                some (quantumBytes (v0 * 262144 + v1 * 4096) 2)
              else none
      | _, _ => none

/-- `Encoding.DecodeString`: carriage returns and line feeds are skipped,
the rest is decoded quantum by quantum.  On failure the bytes decoded so
far are not modelled (the codec discards them). -/
def Encoding.DecodeString (e : Encoding) (s : GoString) : Bytes × Option GoError :=
  match e.decodeQuanta (s.filter (fun c => !(c == 10 || c == 13))) with
  | some bs => (bs, none)
  | none => ([], some GoError.corruptInput)

/-- Modelled from the spec: the helper `websafeEncode`, missing from the
sources: URL-safe base64 encoding, no padding. -/
def websafeEncode (data : Bytes) : GoString := RawURLEncoding.EncodeToString data

/-- Modelled from the spec: the helper `websafeDecode`, missing from the
sources: URL-safe base64 decoding, no padding. -/
def websafeDecode (data : GoString) : Bytes × Option GoError :=
  RawURLEncoding.DecodeString data

/-! ## crypto/sha256 -/

/-- Rotate a 32-bit word right by `n` bits. -/
def rotr (n x : Nat) : Nat := (x >>> n ||| x <<< (32 - n)) % 4294967296

/-- Addition of 32-bit words. -/
def add32 (x y : Nat) : Nat := (x + y) % 4294967296

/-- The round constants of SHA-256. -/
def sha256K : List Nat :=
  [0x428a2f98, 0x71374491, 0xb5c0fbcf, 0xe9b5dba5, 0x3956c25b, 0x59f111f1, 0x923f82a4, 0xab1c5ed5,
   0xd807aa98, 0x12835b01, 0x243185be, 0x550c7dc3, 0x72be5d74, 0x80deb1fe, 0x9bdc06a7, 0xc19bf174,
   0xe49b69c1, 0xefbe4786, 0x0fc19dc6, 0x240ca1cc, 0x2de92c6f, 0x4a7484aa, 0x5cb0a9dc, 0x76f988da,
   0x983e5152, 0xa831c66d, 0xb00327c8, 0xbf597fc7, 0xc6e00bf3, 0xd5a79147, 0x06ca6351, 0x14292967,
   0x27b70a85, 0x2e1b2138, 0x4d2c6dfc, 0x53380d13, 0x650a7354, 0x766a0abb, 0x81c2c92e, 0x92722c85,
   0xa2bfe8a1, 0xa81a664b, 0xc24b8b70, 0xc76c51a3, 0xd192e819, 0xd6990624, 0xf40e3585, 0x106aa070,
   0x19a4c116, 0x1e376c08, 0x2748774c, 0x34b0bcb5, 0x391c0cb3, 0x4ed8aa4a, 0x5b9cca4f, 0x682e6ff3,
   0x748f82ee, 0x78a5636f, 0x84c87814, 0x8cc70208, 0x90befffa, 0xa4506ceb, 0xbef9a3f7, 0xc67178f2]

/-- The eight working words of SHA-256. -/
structure Sha256State where
  a : Nat
  b : Nat
  c : Nat
  d : Nat
  e : Nat
  f : Nat
  g : Nat
  h : Nat
  deriving DecidableEq, Repr

/-- The initial hash value of SHA-256. -/
def sha256Init : Sha256State :=
  ⟨0x6a09e667, 0xbb67ae85, 0x3c6ef372, 0xa54ff53a, 0x510e527f, 0x9b05688c, 0x1f83d9ab, 0x5be0cd19⟩

/-- One round of the compression function with round constant `k` and
schedule word `w`. -/
def sha256Round (s : Sha256State) (k w : Nat) : Sha256State :=
  let s1 := rotr 6 s.e ^^^ rotr 11 s.e ^^^ rotr 25 s.e
  let ch := (s.e &&& s.f) ^^^ ((4294967295 - s.e) &&& s.g)
  let t1 := add32 (add32 (add32 s.h s1) (add32 ch k)) w
  let s0 := rotr 2 s.a ^^^ rotr 13 s.a ^^^ rotr 22 s.a
  let maj := (s.a &&& s.b) ^^^ (s.a &&& s.c) ^^^ (s.b &&& s.c)
  let t2 := add32 s0 maj
  ⟨add32 t1 t2, s.a, s.b, s.c, add32 s.d t1, s.e, s.f, s.g⟩

/-- Extend a message schedule by `n` more words. -/
def sha256Extend : Nat → List Nat → List Nat
  | 0, w => w
  | n + 1, w =>
      let t := w.length
      let w15 := w.getD (t - 15) 0
      let w2 := w.getD (t - 2) 0
      let s0 := rotr 7 w15 ^^^ rotr 18 w15 ^^^ (w15 >>> 3)
      let s1 := rotr 17 w2 ^^^ rotr 19 w2 ^^^ (w2 >>> 10)
      sha256Extend n (w ++ [add32 (add32 (w.getD (t - 16) 0) s0) (add32 (w.getD (t - 7) 0) s1)])

/-- The 16 big-endian words of a 64-byte block. -/
def sha256Words (block : Bytes) : List Nat :=
  (List.range 16).map (fun i =>
    block.getD (4 * i) 0 * 16777216 + block.getD (4 * i + 1) 0 * 65536 +
      block.getD (4 * i + 2) 0 * 256 + block.getD (4 * i + 3) 0)

/-- Process one 64-byte block. -/
def sha256Block (s : Sha256State) (block : Bytes) : Sha256State :=
  let w := sha256Extend 48 (sha256Words block)
  let r := (sha256K.zip w).foldl (fun st kw => sha256Round st kw.1 kw.2) s
  ⟨add32 s.a r.a, add32 s.b r.b, add32 s.c r.c, add32 s.d r.d,
   add32 s.e r.e, add32 s.f r.f, add32 s.g r.g, add32 s.h r.h⟩

/-- The message followed by its padding: a `0x80` byte, zero bytes up to 56
modulo 64, and the bit length as a 64-bit big-endian number. -/
def sha256Pad (msg : Bytes) : Bytes :=
  let bits := 8 * msg.length
  msg ++ 128 :: List.replicate ((119 - msg.length % 64) % 64) 0 ++
    (List.range 8).map (fun i => bits / 256 ^ (7 - i) % 256)

/-- The four big-endian bytes of a 32-bit word. -/
def be32 (x : Nat) : Bytes := [x / 16777216 % 256, x / 65536 % 256, x / 256 % 256, x % 256]

/-- The digest bytes of a final state. -/
def Sha256State.digest (s : Sha256State) : Bytes :=
  be32 s.a ++ be32 s.b ++ be32 s.c ++ be32 s.d ++ be32 s.e ++ be32 s.f ++ be32 s.g ++ be32 s.h

/-- Modelled from the spec: the helper `sha256`, missing from the sources:
the SHA-256 digest of a byte string. -/
def sha256 (data : Bytes) : Bytes :=
  let padded := sha256Pad data
  let blocks := (List.range (padded.length / 64)).map (fun i => (padded.drop (64 * i)).take 64)
  (blocks.foldl sha256Block sha256Init).digest

/-! ## The codec: data model -/

/-- The request of an authentication (`AuthenticateRequest`).  The type
`Key` of the channel-id public key is not declared in the sources and is a
parameter; the pointer field is `none` when `nil`. -/
structure AuthenticateRequest (Key : Type) where
  Challenge : GoString
  AppId : GoString
  KeyHandle : GoString
  Facet : GoString
  ChannelIdPublicKey : Option Key
  ChannelIdUnused : Bool
  CheckOnly : Bool
  WebAuthn : Bool

/-- The result of an authentication (`AuthenticateResponse`); a field that
a composite literal leaves out holds the empty string. -/
structure AuthenticateResponse where
  KeyHandle : GoString
  ClientData : GoString
  SignatureData : GoString
  AuthenticatorData : GoString
  deriving DecidableEq, Repr

/-- The client data record that is serialised to JSON (`clientData`); the
field `Type` of the source is `Typ` here, and `Cid` is the type of the
resolved channel-id value. -/
structure clientData (Cid : Type) where
  Typ : GoString
  Challenge : GoString
  Origin : GoString
  ChannelIdPublicKey : Cid

/-- The parts of the package and of its libraries that `authenticate.go`
uses and that are not in the sources: the channel-id helper, the JSON
serialisation of `clientData`, the status-to-error mapping and the numeric
values of the command constants. -/
structure Collaborators (Key Cid : Type) where
  channelIdPublicKey : Option Key → Bool → Cid × Option GoError
  jsonMarshal : clientData Cid → Bytes × Option GoError
  u2ferror : Nat → Option GoError
  u2fCommandAuthenticate : Nat
  u2fAuthEnforce : Nat
  u2fAuthCheckOnly : Nat

/-- Modelled from the spec: the status constant `u2fStatusNoError`, missing
from the sources: the success status `0x9000`. -/
def u2fStatusNoError : Nat := 0x9000

/-- Modelled from the spec: `butil.Concat`, byte concatenation of its
arguments in order. -/
def Concat (slices : List Bytes) : Bytes := slices.foldr (fun s acc => s ++ acc) []

/-- One call of the transport: `SendAPDU(command, modifier, param2, payload)`. -/
structure APDUCall where
  command : Nat
  modifier : Nat
  param2 : Nat
  payload : Bytes
  deriving DecidableEq, Repr

/-- The device: the answer `(status, response, err)` of its transport to a
command frame. -/
structure HidDevice where
  SendAPDU : Nat → Nat → Nat → Bytes → Nat × Bytes × Option GoError

/-! ## The codec: operations -/

/-- The function `authenticateResponse` of authenticate.go.  In the WebAuthn
branch the slice expressions `response[0:5]` and `response[5:]` need
`5 ≤ len(response)`; otherwise the run time panics. -/
def authenticateResponse {Key Cid : Type} (env : Collaborators Key Cid) (status : Nat)
    (response clientData : Bytes) (keyHandle appID : GoString) (webAuthn : Bool)
    (err : Option GoError) : Exec (Option AuthenticateResponse × Option GoError) :=
  match err with
  | some e => Exec.returns (none, some e)
  | none =>
      if status = u2fStatusNoError then
        if webAuthn then
          if response.length < 5 then Exec.panics
          else
            let authenticatorData := sha256 appID ++ response.take 5
            Exec.returns
              (some { KeyHandle := keyHandle
                      ClientData := websafeEncode clientData
                      SignatureData := StdEncoding.EncodeToString (response.drop 5)
                      AuthenticatorData := StdEncoding.EncodeToString authenticatorData },
               none)
        else
          Exec.returns
            (some { KeyHandle := keyHandle
                    ClientData := websafeEncode clientData
                    SignatureData := websafeEncode response
                    AuthenticatorData := [] },
             none)
      else Exec.returns (none, env.u2ferror status)

/-- The function `authenticateRequest` of authenticate.go: the client data
JSON, the APDU payload and the error. -/
def authenticateRequest {Key Cid : Type} (env : Collaborators Key Cid)
    (req : AuthenticateRequest Key) : Bytes × Bytes × Option GoError :=
  match env.channelIdPublicKey req.ChannelIdPublicKey req.ChannelIdUnused with
  | (_, some err) => ([], [], some err)
  | (cid, none) =>
      match websafeDecode req.KeyHandle with
      | (_, some err) => ([], [], some (GoError.errorf (str "base64 key handle: %s") err))
      | (keyHandle, none) =>
          let typ := if req.WebAuthn then str "webauthn.get" else str "navigator.id.getAssertion"
          let client : clientData Cid :=
            { Typ := typ, Challenge := req.Challenge, Origin := req.Facet,
              ChannelIdPublicKey := cid }
          match env.jsonMarshal client with
          | (_, some err) =>
              ([], [], some (GoError.errorf (str "Error marshaling clientData to json: %s") err))
          | (clientJson, none) =>
              let request := Concat
                [sha256 clientJson, sha256 req.AppId, [keyHandle.length % 256], keyHandle]
              (clientJson, request, none)

/-- The method `HidDevice.Authenticate` of authenticate.go: its result,
paired with the transport calls it made, in order. -/
def Authenticate {Key Cid : Type} (env : Collaborators Key Cid) (dev : HidDevice)
    (req : AuthenticateRequest Key) :
    Exec (Option AuthenticateResponse × Option GoError) × List APDUCall :=
  match authenticateRequest env req with
  | (_, _, some err) => (Exec.returns (none, some err), [])
  | (clientData, request, none) =>
      let authModifier := if req.CheckOnly then env.u2fAuthCheckOnly else env.u2fAuthEnforce
      match dev.SendAPDU env.u2fCommandAuthenticate authModifier 0 request with
      | (status, response, err) =>
          (authenticateResponse env status response clientData req.KeyHandle req.AppId
             req.WebAuthn err,
           [⟨env.u2fCommandAuthenticate, authModifier, 0, request⟩])

/-! ## Scripted collaborators for concrete runs -/

/-- A scripted set of collaborators: no channel id, a client data
serialisation without escaping, textual status errors, and the command
constants of the U2F raw message format. -/
def scriptedEnv : Collaborators Unit Unit where
  channelIdPublicKey := fun _ _ => ((), none)
  jsonMarshal := fun c =>
    (str "\x7b\"typ\":\"" ++ c.Typ ++ str "\",\"challenge\":\"" ++ c.Challenge ++
       str "\",\"origin\":\"" ++ c.Origin ++ str "\"\x7d", none)
  u2ferror := fun status => some (GoError.other (str "U2FError: 0x" ++ (Nat.toDigits 16 status).map Char.toNat))
  u2fCommandAuthenticate := 2
  u2fAuthEnforce := 3
  u2fAuthCheckOnly := 7

/-- The request of the worked example: challenge `e0`, application
`https://example.com`, key handle `YWJj` (the bytes `abc`). -/
def exampleRequest : AuthenticateRequest Unit where
  Challenge := str "e0"
  AppId := str "https://example.com"
  KeyHandle := str "YWJj"
  Facet := str "https://example.com"
  ChannelIdPublicKey := none
  ChannelIdUnused := false
  CheckOnly := false
  WebAuthn := false

/-- The client data JSON that the scripted serialisation gives for the
worked example. -/
def exampleClientJson : Bytes :=
  str "\x7b\"typ\":\"navigator.id.getAssertion\",\"challenge\":\"e0\",\"origin\":\"https://example.com\"\x7d"

/-- A request whose key handle, 342 characters `A`, decodes to 256 zero
bytes. -/
def longKeyHandleRequest : AuthenticateRequest Unit where
  Challenge := str "e0"
  AppId := str "https://example.com"
  KeyHandle := List.replicate 342 65
  Facet := str "https://example.com"
  ChannelIdPublicKey := none
  ChannelIdUnused := false
  CheckOnly := false
  WebAuthn := false

/-- A scripted device: it answers every frame with the success status and a
response of a flags byte, a 4-byte counter and a 3-byte signature. -/
def scriptedDevice : HidDevice where
  SendAPDU := fun _ _ _ _ => (u2fStatusNoError, [1, 0, 0, 0, 7, 48, 6, 2], none)

/-- The worked example with the check-only flag set. -/
def checkOnlyRequest : AuthenticateRequest Unit :=
  { exampleRequest with CheckOnly := true }

/-- The worked example with a key handle that is not URL-safe base64. -/
def badKeyHandleRequest : AuthenticateRequest Unit :=
  { exampleRequest with KeyHandle := str "%%%" }

/-- Scripted collaborators whose channel-id helper refuses a public key
given together with the unused flag. -/
def refusingEnv : Collaborators Unit Unit :=
  { scriptedEnv with
    channelIdPublicKey := fun key unused =>
      if key.isSome && unused then ((), some (GoError.other (str "channel id conflict")))
      else ((), none) }

/-- A request that gives a channel-id public key and sets the unused flag;
its key handle is valid. -/
def conflictRequest : AuthenticateRequest Unit :=
  { exampleRequest with ChannelIdPublicKey := some (), ChannelIdUnused := true }

/-- A request that gives a channel-id public key, sets the unused flag and
has a key handle that is not URL-safe base64. -/
def conflictBadKeyHandleRequest : AuthenticateRequest Unit :=
  { badKeyHandleRequest with ChannelIdPublicKey := some (), ChannelIdUnused := true }

/-- The worked example with the key handle `YR`, which decodes to the byte
`a` but is not the encoding `YQ` of that byte: its last character carries
non-zero trailing bits. -/
def nonCanonicalRequest : AuthenticateRequest Unit :=
  { exampleRequest with KeyHandle := str "YR" }

/-! ## Lemmas on the encodings -/

theorem wfBytes_nil : wfBytes [] := by
  intro b hb; cases hb

theorem wfBytes_cons {a : Nat} {bs : List Nat} :
    wfBytes (a :: bs) ↔ a < 256 ∧ wfBytes bs := by
  simp [wfBytes]

theorem wfBytes_append {xs ys : List Nat} :
    wfBytes (xs ++ ys) ↔ wfBytes xs ∧ wfBytes ys := by
  simp only [wfBytes, List.mem_append]
  constructor
  · intro h; exact ⟨fun b hb => h b (Or.inl hb), fun b hb => h b (Or.inr hb)⟩
  · rintro ⟨h1, h2⟩ b (hb | hb)
    · exact h1 b hb
    · exact h2 b hb

theorem wfBytes_take {xs : List Nat} (n : Nat) (h : wfBytes xs) : wfBytes (xs.take n) :=
  fun b hb => h b (List.mem_of_mem_take hb)

theorem wfBytes_drop {xs : List Nat} (n : Nat) (h : wfBytes xs) : wfBytes (xs.drop n) :=
  fun b hb => h b (List.mem_of_mem_drop hb)

/-- The URL-safe alphabet decodes its own characters. -/
theorem url_decodeMap_enc (x : Nat) :
    RawURLEncoding.decodeMap (RawURLEncoding.enc (x % 64)) = some (x % 64) := by
  have h : ∀ v, v < 64 → RawURLEncoding.decodeMap (RawURLEncoding.enc v) = some v := by decide
  exact h _ (Nat.mod_lt _ (by decide))

/-- The standard alphabet decodes its own characters. -/
theorem std_decodeMap_enc (x : Nat) :
    StdEncoding.decodeMap (StdEncoding.enc (x % 64)) = some (x % 64) := by
  have h : ∀ v, v < 64 → StdEncoding.decodeMap (StdEncoding.enc v) = some v := by decide
  exact h _ (Nat.mod_lt _ (by decide))

/-- No character of the URL-safe alphabet is a line break. -/
theorem url_enc_no_break (x : Nat) :
    (!(RawURLEncoding.enc (x % 64) == 10 || RawURLEncoding.enc (x % 64) == 13)) = true := by
  have h : ∀ v, v < 64 →
      (!(RawURLEncoding.enc v == 10 || RawURLEncoding.enc v == 13)) = true := by decide
  exact h _ (Nat.mod_lt _ (by decide))

/-- No character of the standard alphabet is a line break. -/
theorem std_enc_no_break (x : Nat) :
    (!(StdEncoding.enc (x % 64) == 10 || StdEncoding.enc (x % 64) == 13)) = true := by
  have h : ∀ v, v < 64 →
      (!(StdEncoding.enc v == 10 || StdEncoding.enc v == 13)) = true := by decide
  exact h _ (Nat.mod_lt _ (by decide))

/-- Four six-bit values of a 24-bit group give back its three bytes. -/
theorem quantumBytes_full (a b c : Nat) (ha : a < 256) (hb : b < 256) (hc : c < 256) :
    quantumBytes
      ((a * 65536 + b * 256 + c) / 262144 % 64 * 262144 +
        (a * 65536 + b * 256 + c) / 4096 % 64 * 4096 +
        (a * 65536 + b * 256 + c) / 64 % 64 * 64 + (a * 65536 + b * 256 + c) % 64) 4
      = [a, b, c] := by
  have hv : (a * 65536 + b * 256 + c) / 262144 % 64 * 262144 +
        (a * 65536 + b * 256 + c) / 4096 % 64 * 4096 +
        (a * 65536 + b * 256 + c) / 64 % 64 * 64 + (a * 65536 + b * 256 + c) % 64
        = a * 65536 + b * 256 + c := by omega
  rw [hv]
  have h0 : (a * 65536 + b * 256 + c) / 65536 % 256 = a := by omega
  have h1 : (a * 65536 + b * 256 + c) / 256 % 256 = b := by omega
  have h2 : (a * 65536 + b * 256 + c) % 256 = c := by omega
  unfold quantumBytes
  rw [h0, h1, h2]
  rfl

/-- Three six-bit values of a final group give back its two bytes. -/
theorem quantumBytes_two (a b : Nat) (ha : a < 256) (hb : b < 256) :
    quantumBytes
      ((a * 65536 + b * 256) / 262144 % 64 * 262144 +
        (a * 65536 + b * 256) / 4096 % 64 * 4096 +
        (a * 65536 + b * 256) / 64 % 64 * 64) 3
      = [a, b] := by
  have hv : (a * 65536 + b * 256) / 262144 % 64 * 262144 +
        (a * 65536 + b * 256) / 4096 % 64 * 4096 +
        (a * 65536 + b * 256) / 64 % 64 * 64 = a * 65536 + b * 256 := by omega
  rw [hv]
  have h0 : (a * 65536 + b * 256) / 65536 % 256 = a := by omega
  have h1 : (a * 65536 + b * 256) / 256 % 256 = b := by omega
  unfold quantumBytes
  rw [h0, h1]
  rfl

/-- Two six-bit values of a final group give back its byte. -/
theorem quantumBytes_one (a : Nat) (ha : a < 256) :
    quantumBytes
      ((a * 65536) / 262144 % 64 * 262144 + (a * 65536) / 4096 % 64 * 4096) 2 = [a] := by
  have hv : (a * 65536) / 262144 % 64 * 262144 + (a * 65536) / 4096 % 64 * 4096
      = a * 65536 := by omega
  rw [hv]
  have h0 : (a * 65536) / 65536 % 256 = a := by omega
  unfold quantumBytes
  rw [h0]
  rfl

/-- Decoding the quanta of an unpadded URL-safe encoding gives the bytes. -/
theorem url_decodeQuanta_encode :
    ∀ bs : Bytes, wfBytes bs →
      RawURLEncoding.decodeQuanta (RawURLEncoding.EncodeToString bs) = some bs
  | [], _ => rfl
  | [a], h => by
      have ha : a < 256 := h a (by simp)
      have := url_decodeMap_enc
      simp only [RawURLEncoding] at this
      simp only [Encoding.EncodeToString, Encoding.decodeQuanta, Encoding.padding,
        RawURLEncoding, this, quantumBytes_one a ha]
  | [a, b], h => by
      have ha : a < 256 := h a (by simp)
      have hb : b < 256 := h b (by simp)
      have := url_decodeMap_enc
      simp only [RawURLEncoding] at this
      simp only [Encoding.EncodeToString, Encoding.decodeQuanta, Encoding.padding,
        RawURLEncoding, this, quantumBytes_two a b ha hb]
  | a :: b :: c :: rest, h => by
      have ha : a < 256 := h a (by simp)
      have hb : b < 256 := h b (by simp)
      have hc : c < 256 := h c (by simp)
      have hrest : wfBytes rest := fun x hx => h x (by simp [hx])
      have ih := url_decodeQuanta_encode rest hrest
      have := url_decodeMap_enc
      simp only [RawURLEncoding] at this ih
      simp only [Encoding.EncodeToString, Encoding.decodeQuanta, RawURLEncoding, this,
        quantumBytes_full a b c ha hb hc, ih]
      rfl

/-- Decoding the quanta of a padded standard encoding gives the bytes. -/
theorem std_decodeQuanta_encode :
    ∀ bs : Bytes, wfBytes bs →
      StdEncoding.decodeQuanta (StdEncoding.EncodeToString bs) = some bs
  | [], _ => rfl
  | [a], h => by
      have ha : a < 256 := h a (by simp)
      have := std_decodeMap_enc
      have hp : StdEncoding.decodeMap 61 = none := by decide
      simp only [StdEncoding] at this hp
      simp [Encoding.EncodeToString, Encoding.decodeQuanta, Encoding.padding,
        StdEncoding, this, hp, quantumBytes_one a ha]
  | [a, b], h => by
      have ha : a < 256 := h a (by simp)
      have hb : b < 256 := h b (by simp)
      have := std_decodeMap_enc
      have hp : StdEncoding.decodeMap 61 = none := by decide
      simp only [StdEncoding] at this hp
      simp [Encoding.EncodeToString, Encoding.decodeQuanta, Encoding.padding,
        StdEncoding, this, hp, quantumBytes_two a b ha hb]
  | a :: b :: c :: rest, h => by
      have ha : a < 256 := h a (by simp)
      have hb : b < 256 := h b (by simp)
      have hc : c < 256 := h c (by simp)
      have hrest : wfBytes rest := fun x hx => h x (by simp [hx])
      have ih := std_decodeQuanta_encode rest hrest
      have := std_decodeMap_enc
      simp only [StdEncoding] at this ih
      simp only [Encoding.EncodeToString, Encoding.decodeQuanta, StdEncoding, this,
        quantumBytes_full a b c ha hb hc, ih]
      rfl

/-- An URL-safe encoding holds no line break. -/
theorem url_encode_filter :
    ∀ bs : Bytes,
      (RawURLEncoding.EncodeToString bs).filter (fun c => !(c == 10 || c == 13))
        = RawURLEncoding.EncodeToString bs
  | [] => rfl
  | [a] => by
      simp only [Encoding.EncodeToString, Encoding.padding, RawURLEncoding, List.filter]
      have := url_enc_no_break
      simp only [RawURLEncoding] at this
      simp only [this]
  | [a, b] => by
      simp only [Encoding.EncodeToString, Encoding.padding, RawURLEncoding, List.filter]
      have := url_enc_no_break
      simp only [RawURLEncoding] at this
      simp only [this]
  | a :: b :: c :: rest => by
      have ih := url_encode_filter rest
      have := url_enc_no_break
      simp only [RawURLEncoding] at this ih
      simp only [Encoding.EncodeToString, RawURLEncoding, List.filter, this, ih]

/-- A standard encoding holds no line break. -/
theorem std_encode_filter :
    ∀ bs : Bytes,
      (StdEncoding.EncodeToString bs).filter (fun c => !(c == 10 || c == 13))
        = StdEncoding.EncodeToString bs
  | [] => rfl
  | [a] => by
      have := std_enc_no_break
      simp only [StdEncoding] at this
      simp [Encoding.EncodeToString, Encoding.padding, StdEncoding, List.filter, this]
  | [a, b] => by
      have := std_enc_no_break
      simp only [StdEncoding] at this
      simp [Encoding.EncodeToString, Encoding.padding, StdEncoding, List.filter, this]
  | a :: b :: c :: rest => by
      have ih := std_encode_filter rest
      have := std_enc_no_break
      simp only [StdEncoding] at this ih
      simp only [Encoding.EncodeToString, StdEncoding, List.filter, this, ih]

/-- URL-safe decoding inverts URL-safe encoding on byte strings. -/
theorem websafeDecode_websafeEncode (bs : Bytes) (h : wfBytes bs) :
    websafeDecode (websafeEncode bs) = (bs, none) := by
  simp only [websafeDecode, websafeEncode, Encoding.DecodeString, url_encode_filter,
    url_decodeQuanta_encode bs h]

/-- Standard decoding inverts standard encoding on byte strings. -/
theorem std_decode_encode (bs : Bytes) (h : wfBytes bs) :
    StdEncoding.DecodeString (StdEncoding.EncodeToString bs) = (bs, none) := by
  simp only [Encoding.DecodeString, std_encode_filter, std_decodeQuanta_encode bs h]

/-- A padded standard encoding has 4 characters for each started group of
3 bytes. -/
theorem std_encode_length :
    ∀ bs : Bytes, (StdEncoding.EncodeToString bs).length = 4 * ((bs.length + 2) / 3)
  | [] => rfl
  | [_] => by simp [Encoding.EncodeToString, Encoding.padding, StdEncoding]
  | [_, _] => by simp [Encoding.EncodeToString, Encoding.padding, StdEncoding]
  | a :: b :: c :: rest => by
      have ih := std_encode_length rest
      simp only [Encoding.EncodeToString, List.length_cons, ih]
      omega

/-- A digest has 32 bytes. -/
theorem sha256_length (data : Bytes) : (sha256 data).length = 32 := by
  simp [sha256, Sha256State.digest, be32]

/-- A digest is a byte string. -/
theorem sha256_wf (data : Bytes) : wfBytes (sha256 data) := by
  intro b hb
  simp only [sha256, Sha256State.digest, be32, List.mem_append, List.mem_cons,
    List.mem_singleton, List.not_mem_nil, or_false] at hb
  omega

/-! ## Lemmas on the request builder -/

/-- The four parts of a payload, read back by slicing. -/
theorem payload_slices (x y kh : Bytes) (n : Nat) (hx : x.length = 32) (hy : y.length = 32) :
    (x ++ y ++ [n] ++ kh).length = 32 + 32 + 1 + kh.length ∧
      (x ++ y ++ [n] ++ kh).take 32 = x ∧
      ((x ++ y ++ [n] ++ kh).drop 32).take 32 = y ∧
      (x ++ y ++ [n] ++ kh)[64]? = some n ∧
      (x ++ y ++ [n] ++ kh).drop 65 = kh := by
  refine ⟨by simp [hx, hy]; omega, ?_, ?_, ?_, ?_⟩
  · rw [List.append_assoc, List.append_assoc]
    exact List.take_left' hx
  · rw [List.append_assoc, List.append_assoc, List.drop_left' hx]
    exact List.take_left' hy
  · have h : (x ++ y).length = 64 := by simp [hx, hy]
    rw [List.append_assoc (x ++ y), List.getElem?_append_right (by omega), h]
    simp
  · have h : (x ++ y ++ [n]).length = 65 := by simp [hx, hy]
    exact List.drop_left' h

/-- The result of the request builder when each stage succeeds. -/
theorem authenticateRequest_ok {Key Cid : Type} (env : Collaborators Key Cid)
    (req : AuthenticateRequest Key) (cid : Cid) (kh clientJson : Bytes)
    (hcid : env.channelIdPublicKey req.ChannelIdPublicKey req.ChannelIdUnused = (cid, none))
    (hkh : websafeDecode req.KeyHandle = (kh, none))
    (hjson : env.jsonMarshal
        { Typ := if req.WebAuthn then str "webauthn.get" else str "navigator.id.getAssertion"
          Challenge := req.Challenge
          Origin := req.Facet
          ChannelIdPublicKey := cid } = (clientJson, none)) :
    authenticateRequest env req =
      (clientJson, sha256 clientJson ++ sha256 req.AppId ++ [kh.length % 256] ++ kh, none) := by
  simp only [authenticateRequest, hcid, hkh, hjson, Concat, List.foldr, List.append_nil,
    List.append_assoc]

/-- The 342 characters `A` decode to 256 zero bytes. -/
theorem websafeDecode_long : websafeDecode (List.replicate 342 65) = (List.replicate 256 0, none) := by
  have h : websafeEncode (List.replicate 256 0) = List.replicate 342 65 := by decide!
  rw [← h]
  exact websafeDecode_websafeEncode _ (fun b hb => by rw [List.eq_of_mem_replicate hb]; decide)

/-! ## The request builder: payload layout -/

/-- C1: for a request whose channel id resolves, whose key handle decodes to
`kh` of at most 255 bytes and whose client data serialises to `clientJson`,
`authenticateRequest` returns `(clientJson, payload, nil)` where `payload`
is `SHA-256(clientJson) ‖ SHA-256(AppId) ‖ len(kh) ‖ kh`: its length is
`32 + 32 + 1 + len(kh)` and its ranges `[0:32]`, `[32:64]`, `[64]`, `[65:]`
are the two digests, the length and the key handle. -/
theorem authenticateRequest_payload_layout {Key Cid : Type} (env : Collaborators Key Cid)
    (req : AuthenticateRequest Key) (cid : Cid) (kh clientJson : Bytes)
    (hcid : env.channelIdPublicKey req.ChannelIdPublicKey req.ChannelIdUnused = (cid, none))
    (hkh : websafeDecode req.KeyHandle = (kh, none))
    (hlen : kh.length ≤ 255)
    (hjson : env.jsonMarshal
        { Typ := if req.WebAuthn then str "webauthn.get" else str "navigator.id.getAssertion"
          Challenge := req.Challenge
          Origin := req.Facet
          ChannelIdPublicKey := cid } = (clientJson, none)) :
    ∃ payload : Bytes,
      authenticateRequest env req = (clientJson, payload, none) ∧
      payload = sha256 clientJson ++ sha256 req.AppId ++ [kh.length] ++ kh ∧
      payload.length = 32 + 32 + 1 + kh.length ∧
      payload.take 32 = sha256 clientJson ∧
      (payload.drop 32).take 32 = sha256 req.AppId ∧
      payload[64]? = some kh.length ∧
      payload.drop 65 = kh := by
  have hres := authenticateRequest_ok env req cid kh clientJson hcid hkh hjson
  rw [Nat.mod_eq_of_lt (by omega : kh.length < 256)] at hres
  have hs := payload_slices (sha256 clientJson) (sha256 req.AppId) kh kh.length
    (sha256_length _) (sha256_length _)
  exact ⟨_, hres, rfl, hs.1, hs.2.1, hs.2.2.1, hs.2.2.2.1, hs.2.2.2.2⟩

/-- The worked example of C1: challenge `e0`, application
`https://example.com`, key handle `YWJj`. -/
theorem authenticateRequest_payload_layout_witness :
    websafeDecode exampleRequest.KeyHandle = (str "abc", none) ∧
    ∃ payload : Bytes,
      authenticateRequest scriptedEnv exampleRequest = (exampleClientJson, payload, none) ∧
      payload = sha256 exampleClientJson ++ sha256 (str "https://example.com") ++ [3]
        ++ str "abc" ∧
      payload.length = 32 + 32 + 1 + 3 ∧
      payload.take 32 = sha256 exampleClientJson ∧
      (payload.drop 32).take 32 = sha256 (str "https://example.com") ∧
      payload[64]? = some 3 ∧
      payload.drop 65 = str "abc" :=
  ⟨by decide,
   authenticateRequest_payload_layout scriptedEnv exampleRequest () (str "abc")
     exampleClientJson rfl (by decide) (by decide) (by decide)⟩

/-! ## The response interpreter: short WebAuthn responses -/

/-- C2, as stated, fails: on a success status with a 4-byte response in
WebAuthn mode and no transport error, `authenticateResponse` does not
return a decode-fault error with a nil response; the slice expression is
out of range and the call panics. -/
theorem authenticateResponse_short_webauthn_counterexample :
    authenticateResponse scriptedEnv u2fStatusNoError [1, 0, 0, 0] (str "cd") (str "YWJj")
        (str "https://example.com") true none = Exec.panics ∧
    ¬ ∃ e : GoError,
        authenticateResponse scriptedEnv u2fStatusNoError [1, 0, 0, 0] (str "cd") (str "YWJj")
          (str "https://example.com") true none = Exec.returns (none, some e) := by
  have h : authenticateResponse scriptedEnv u2fStatusNoError [1, 0, 0, 0] (str "cd")
      (str "YWJj") (str "https://example.com") true none = Exec.panics := rfl
  refine ⟨h, ?_⟩
  rintro ⟨e, he⟩
  rw [h] at he
  cases he

/-- C2, amended: with no transport error, the success status and WebAuthn
mode, `authenticateResponse` validates no length and yields no decode-fault
error: on a response of fewer than 5 bytes the slice expression is out of
range and the call panics, and on a response of at least 5 bytes it returns
a response with a nil error. -/
theorem authenticateResponse_webauthn_length_precondition {Key Cid : Type}
    (env : Collaborators Key Cid) (response clientData : Bytes) (keyHandle appID : GoString) :
    (response.length < 5 →
      authenticateResponse env u2fStatusNoError response clientData keyHandle appID true none
        = Exec.panics) ∧
    (5 ≤ response.length →
      ∃ r : AuthenticateResponse,
        authenticateResponse env u2fStatusNoError response clientData keyHandle appID true none
          = Exec.returns (some r, none)) := by
  constructor
  · intro h
    simp [authenticateResponse, h]
  · intro h
    have h5 : ¬ response.length < 5 := by omega
    exact ⟨_, by simp only [authenticateResponse, h5, if_true, if_false]; rfl⟩

/-- Concrete runs of the amended C2: a 4-byte response panics, a 5-byte
response is answered. -/
theorem authenticateResponse_webauthn_length_precondition_witness :
    authenticateResponse scriptedEnv u2fStatusNoError [1, 0, 0, 0] (str "cd") (str "YWJj")
        (str "https://example.com") true none = Exec.panics ∧
    ∃ r : AuthenticateResponse,
      authenticateResponse scriptedEnv u2fStatusNoError [1, 0, 0, 0, 7] (str "cd") (str "YWJj")
        (str "https://example.com") true none = Exec.returns (some r, none) :=
  ⟨(authenticateResponse_webauthn_length_precondition scriptedEnv [1, 0, 0, 0] (str "cd")
      (str "YWJj") (str "https://example.com")).1 (by decide),
   (authenticateResponse_webauthn_length_precondition scriptedEnv [1, 0, 0, 0, 7] (str "cd")
      (str "YWJj") (str "https://example.com")).2 (by decide)⟩

/-! ## The request builder: the length byte -/

/-- C3, as stated, fails: the request whose key handle decodes to 256 zero
bytes is accepted with a nil error, and the length byte of its payload is
0, the length reduced modulo 256, not 256. -/
theorem authenticateRequest_length_byte_counterexample :
    ∃ clientJson payload : Bytes,
      authenticateRequest scriptedEnv longKeyHandleRequest = (clientJson, payload, none) ∧
      websafeDecode longKeyHandleRequest.KeyHandle = (List.replicate 256 0, none) ∧
      (List.replicate 256 0).length = 256 ∧
      payload[64]? = some 0 ∧
      payload[64]? ≠ some (List.replicate 256 0).length := by
  have hres := authenticateRequest_ok scriptedEnv longKeyHandleRequest () (List.replicate 256 0)
    exampleClientJson rfl websafeDecode_long (by decide)
  have hs := payload_slices (sha256 exampleClientJson) (sha256 longKeyHandleRequest.AppId)
    (List.replicate 256 0) ((List.replicate 256 0).length % 256)
    (sha256_length _) (sha256_length _)
  refine ⟨_, _, hres, websafeDecode_long, List.length_replicate _ _, ?_, ?_⟩
  · rw [hs.2.2.2.1, List.length_replicate]
  · rw [hs.2.2.2.1, List.length_replicate]
    decide

/-- C3, amended: on every request for which `authenticateRequest` returns a
nil error, the key handle decoded without error and the length byte
`payload[64]` is the byte length of the decoded key handle reduced modulo
256; it equals that length when the key handle has at most 255 bytes. -/
theorem authenticateRequest_length_byte_mod {Key Cid : Type} (env : Collaborators Key Cid)
    (req : AuthenticateRequest Key)
    (hok : (authenticateRequest env req).2.2 = none) :
    (websafeDecode req.KeyHandle).2 = none ∧
    (authenticateRequest env req).2.1[64]?
      = some ((websafeDecode req.KeyHandle).1.length % 256) ∧
    ((websafeDecode req.KeyHandle).1.length ≤ 255 →
      (authenticateRequest env req).2.1[64]? = some (websafeDecode req.KeyHandle).1.length) := by
  rcases hc : env.channelIdPublicKey req.ChannelIdPublicKey req.ChannelIdUnused with ⟨cid, ce⟩
  cases ce with
  | some e => simp [authenticateRequest, hc] at hok
  | none =>
    rcases hk : websafeDecode req.KeyHandle with ⟨kh, ke⟩
    cases ke with
    | some e => simp [authenticateRequest, hc, hk] at hok
    | none =>
      rcases hj : env.jsonMarshal
          { Typ := if req.WebAuthn then str "webauthn.get" else str "navigator.id.getAssertion"
            Challenge := req.Challenge
            Origin := req.Facet
            ChannelIdPublicKey := cid } with ⟨cj, je⟩
      cases je with
      | some e => simp [authenticateRequest, hc, hk, hj] at hok
      | none =>
        have hres := authenticateRequest_ok env req cid kh cj hc hk hj
        have hs := payload_slices (sha256 cj) (sha256 req.AppId) kh (kh.length % 256)
          (sha256_length _) (sha256_length _)
        rw [hres]
        refine ⟨rfl, hs.2.2.2.1, ?_⟩
        intro hle
        have hlt : kh.length < 256 := Nat.lt_succ_of_le hle
        show (sha256 cj ++ sha256 req.AppId ++ [kh.length % 256] ++ kh)[64]? = some kh.length
        rw [hs.2.2.2.1, Nat.mod_eq_of_lt hlt]

/-- A concrete run of the amended C3: the worked example is accepted and
its length byte is 3. -/
theorem authenticateRequest_length_byte_mod_witness :
    (authenticateRequest scriptedEnv exampleRequest).2.2 = none ∧
    (authenticateRequest scriptedEnv exampleRequest).2.1[64]? = some 3 :=
  ⟨by decide,
   (authenticateRequest_length_byte_mod scriptedEnv exampleRequest (by decide)).2.2
     (by decide)⟩

/-! ## The response interpreter: errors -/

/-- C4: when the transport error passed to `authenticateResponse` is not
nil, the function returns a nil response and that same error, whatever the
status, the response bytes (empty or short ones included), the client
data, the key handle, the application id and the mode; no byte of the
response is sliced, so the call cannot panic. -/
theorem authenticateResponse_transport_error {Key Cid : Type} (env : Collaborators Key Cid)
    (status : Nat) (response clientData : Bytes) (keyHandle appID : GoString) (webAuthn : Bool)
    (e : GoError) :
    authenticateResponse env status response clientData keyHandle appID webAuthn (some e)
      = Exec.returns (none, some e) := rfl

/-- C5: for a status other than `u2fStatusNoError`, with no transport
error, `authenticateResponse` returns a nil response together with the
error `u2ferror(status)` of the status mapping, in either mode and for
every response. -/
theorem authenticateResponse_status_error {Key Cid : Type} (env : Collaborators Key Cid)
    (status : Nat) (response clientData : Bytes) (keyHandle appID : GoString) (webAuthn : Bool)
    (hstatus : status ≠ u2fStatusNoError) :
    authenticateResponse env status response clientData keyHandle appID webAuthn none
      = Exec.returns (none, env.u2ferror status) := by
  simp [authenticateResponse, hstatus]

/-- A concrete run of C5: status `0x6985` with an empty response in
WebAuthn mode. -/
theorem authenticateResponse_status_error_witness :
    (0x6985 : Nat) ≠ u2fStatusNoError ∧
    authenticateResponse scriptedEnv 0x6985 [] (str "cd") (str "YWJj")
        (str "https://example.com") true none
      = Exec.returns (none, scriptedEnv.u2ferror 0x6985) :=
  ⟨by decide,
   authenticateResponse_status_error scriptedEnv 0x6985 [] (str "cd") (str "YWJj")
     (str "https://example.com") true (by decide)⟩

/-- C6: provided the status mapping gives a non-nil error for every status
other than success, whenever `authenticateResponse` returns, and whenever
`Authenticate` returns, exactly one of the two results is present: a
response with a nil error, or a nil response with an error. -/
theorem result_response_xor_error {Key Cid : Type} (env : Collaborators Key Cid)
    (hmap : ∀ s : Nat, s ≠ u2fStatusNoError → (env.u2ferror s).isSome = true)
    (status : Nat) (response clientData : Bytes) (keyHandle appID : GoString) (webAuthn : Bool)
    (err : Option GoError) (dev : HidDevice) (req : AuthenticateRequest Key) :
    (∀ (r : Option AuthenticateResponse) (e : Option GoError),
        authenticateResponse env status response clientData keyHandle appID webAuthn err
          = Exec.returns (r, e) →
        (r.isSome = true ∧ e = none) ∨ (r = none ∧ e.isSome = true)) ∧
    (∀ (r : Option AuthenticateResponse) (e : Option GoError),
        (Authenticate env dev req).1 = Exec.returns (r, e) →
        (r.isSome = true ∧ e = none) ∨ (r = none ∧ e.isSome = true)) := by
  have key : ∀ (status : Nat) (response clientData : Bytes) (keyHandle appID : GoString)
      (webAuthn : Bool) (err : Option GoError)
      (r : Option AuthenticateResponse) (e : Option GoError),
      authenticateResponse env status response clientData keyHandle appID webAuthn err
          = Exec.returns (r, e) →
        (r.isSome = true ∧ e = none) ∨ (r = none ∧ e.isSome = true) := by
    intro status response clientData keyHandle appID webAuthn err r e h
    cases err with
    | some t =>
      simp only [authenticateResponse, Exec.returns.injEq, Prod.mk.injEq] at h
      right
      exact ⟨h.1.symm, by rw [← h.2]; rfl⟩
    | none =>
      by_cases hs : status = u2fStatusNoError
      · cases webAuthn with
        | true =>
          by_cases h5 : response.length < 5
          · simp [authenticateResponse, hs, h5] at h
          · simp only [authenticateResponse, hs, h5, if_true, if_false,
              Exec.returns.injEq, Prod.mk.injEq] at h
            left
            exact ⟨by rw [← h.1]; rfl, h.2.symm⟩
        | false =>
          simp only [authenticateResponse, hs, if_true, Bool.false_eq_true, if_false,
            Exec.returns.injEq, Prod.mk.injEq] at h
          left
          exact ⟨by rw [← h.1]; rfl, h.2.symm⟩
      · simp only [authenticateResponse, hs, if_false, Exec.returns.injEq,
          Prod.mk.injEq] at h
        right
        exact ⟨h.1.symm, by rw [← h.2]; exact hmap status hs⟩
  refine ⟨key status response clientData keyHandle appID webAuthn err, ?_⟩
  intro r e h
  rcases hreq : authenticateRequest env req with ⟨cj, payload, rerr⟩
  cases rerr with
  | some t =>
    simp only [Authenticate, hreq, Exec.returns.injEq, Prod.mk.injEq] at h
    right
    exact ⟨h.1.symm, by rw [← h.2]; rfl⟩
  | none =>
    simp only [Authenticate, hreq] at h
    exact key _ _ _ _ _ _ _ r e h

/-- Concrete runs of C6: the scripted status mapping never gives nil; a
status `0x6985` gives an error without a response, and a full exchange with
the scripted device gives a response without an error. -/
theorem result_response_xor_error_witness :
    (∀ s : Nat, s ≠ u2fStatusNoError → (scriptedEnv.u2ferror s).isSome = true) ∧
    (∃ (r : Option AuthenticateResponse) (e : Option GoError),
      authenticateResponse scriptedEnv 0x6985 [] (str "cd") (str "YWJj")
          (str "https://example.com") true none = Exec.returns (r, e) ∧
        ((r.isSome = true ∧ e = none) ∨ (r = none ∧ e.isSome = true))) ∧
    (∃ (r : Option AuthenticateResponse) (e : Option GoError),
      (Authenticate scriptedEnv scriptedDevice exampleRequest).1 = Exec.returns (r, e) ∧
        ((r.isSome = true ∧ e = none) ∨ (r = none ∧ e.isSome = true))) :=
  ⟨fun _ _ => rfl,
   ⟨_, _, rfl,
     (result_response_xor_error scriptedEnv (fun _ _ => rfl) 0x6985 [] (str "cd") (str "YWJj")
       (str "https://example.com") true none scriptedDevice exampleRequest).1 _ _ rfl⟩,
   ⟨_, _, rfl,
     (result_response_xor_error scriptedEnv (fun _ _ => rfl) 0x6985 [] (str "cd") (str "YWJj")
       (str "https://example.com") true none scriptedDevice exampleRequest).2 _ _ rfl⟩⟩

/-! ## The response interpreter: successful responses -/

/-- C7: with no transport error, the success status and legacy mode,
`authenticateResponse` returns, with a nil error, the response whose
KeyHandle is the input key handle, whose ClientData is the URL-safe base64
of the client data bytes, whose SignatureData is the URL-safe base64 of the
whole response, and whose AuthenticatorData is empty. -/
theorem authenticateResponse_legacy {Key Cid : Type} (env : Collaborators Key Cid)
    (response clientData : Bytes) (keyHandle appID : GoString) :
    authenticateResponse env u2fStatusNoError response clientData keyHandle appID false none
      = Exec.returns
          (some { KeyHandle := keyHandle
                  ClientData := websafeEncode clientData
                  SignatureData := websafeEncode response
                  AuthenticatorData := [] },
           none) := rfl

/-- C8, as stated, fails: for the 8-byte response of the scripted device the
AuthenticatorData field is not the 37 bytes `SHA-256(AppId) ‖ response[0:5]`
but a string of 52 characters. -/
theorem authenticatorData_raw_counterexample :
    ∃ r : AuthenticateResponse,
      authenticateResponse scriptedEnv u2fStatusNoError [1, 0, 0, 0, 7, 48, 6, 2] (str "cd")
          (str "YWJj") (str "https://example.com") true none = Exec.returns (some r, none) ∧
      (sha256 (str "https://example.com") ++ [1, 0, 0, 0, 7]).length = 37 ∧
      r.AuthenticatorData.length = 52 ∧
      r.AuthenticatorData ≠ sha256 (str "https://example.com") ++ [1, 0, 0, 0, 7] := by
  have hlen : (sha256 (str "https://example.com") ++ [1, 0, 0, 0, 7]).length = 37 := by
    rw [List.length_append, sha256_length]; rfl
  have h52 : (StdEncoding.EncodeToString
      (sha256 (str "https://example.com") ++ [1, 0, 0, 0, 7])).length = 52 := by
    rw [std_encode_length, hlen]
  refine ⟨_, rfl, hlen, h52, ?_⟩
  intro h
  have h' : (StdEncoding.EncodeToString
      (sha256 (str "https://example.com") ++ [1, 0, 0, 0, 7])).length
      = (sha256 (str "https://example.com") ++ [1, 0, 0, 0, 7]).length :=
    congrArg List.length h
  rw [h52, hlen] at h'
  exact absurd h' (by decide)

/-- C8, amended: for a response of at least 5 bytes, with no transport
error, the success status and WebAuthn mode, the AuthenticatorData field is
the standard base64 encoding, 52 characters long, of the 37 bytes
`SHA-256(AppId) ‖ response[0:5]`, and standard base64 decoding of the field
gives exactly those 37 bytes. -/
theorem authenticatorData_encoded {Key Cid : Type} (env : Collaborators Key Cid)
    (response clientData : Bytes) (keyHandle appID : GoString)
    (hlen : 5 ≤ response.length) (hwf : wfBytes response) :
    ∃ r : AuthenticateResponse,
      authenticateResponse env u2fStatusNoError response clientData keyHandle appID true none
        = Exec.returns (some r, none) ∧
      r.AuthenticatorData = StdEncoding.EncodeToString (sha256 appID ++ response.take 5) ∧
      (sha256 appID ++ response.take 5).length = 37 ∧
      r.AuthenticatorData.length = 52 ∧
      StdEncoding.DecodeString r.AuthenticatorData = (sha256 appID ++ response.take 5, none) := by
  have h5 : ¬ response.length < 5 := by omega
  have h37 : (sha256 appID ++ response.take 5).length = 37 := by
    rw [List.length_append, sha256_length, List.length_take]
    omega
  have hwf37 : wfBytes (sha256 appID ++ response.take 5) :=
    wfBytes_append.2 ⟨sha256_wf _, wfBytes_take 5 hwf⟩
  refine ⟨_, by simp only [authenticateResponse, h5, if_true, if_false]; rfl, rfl, h37, ?_, ?_⟩
  · show (StdEncoding.EncodeToString (sha256 appID ++ response.take 5)).length = 52
    rw [std_encode_length, h37]
  · exact std_decode_encode _ hwf37

/-- A concrete run of the amended C8 on the response of the scripted
device. -/
theorem authenticatorData_encoded_witness :
    5 ≤ [1, 0, 0, 0, 7, 48, 6, 2].length ∧ wfBytes [1, 0, 0, 0, 7, 48, 6, 2] ∧
    ∃ r : AuthenticateResponse,
      authenticateResponse scriptedEnv u2fStatusNoError [1, 0, 0, 0, 7, 48, 6, 2] (str "cd")
          (str "YWJj") (str "https://example.com") true none = Exec.returns (some r, none) ∧
      r.AuthenticatorData = StdEncoding.EncodeToString
        (sha256 (str "https://example.com") ++ [1, 0, 0, 0, 7, 48, 6, 2].take 5) ∧
      (sha256 (str "https://example.com") ++ [1, 0, 0, 0, 7, 48, 6, 2].take 5).length = 37 ∧
      r.AuthenticatorData.length = 52 ∧
      StdEncoding.DecodeString r.AuthenticatorData
        = (sha256 (str "https://example.com") ++ [1, 0, 0, 0, 7, 48, 6, 2].take 5, none) :=
  ⟨by decide, by decide,
   authenticatorData_encoded scriptedEnv [1, 0, 0, 0, 7, 48, 6, 2] (str "cd") (str "YWJj")
     (str "https://example.com") (by decide) (by decide)⟩

/-- C9: for a response of `5 + N` bytes, with no transport error, the
success status and WebAuthn mode, `authenticateResponse` returns a response
whose SignatureData is the standard base64 encoding of `response[5:]`, so
that standard base64 decoding gives exactly the trailing `N` bytes, whose
ClientData is the URL-safe base64 of the client data bytes and whose
KeyHandle is the input key handle. -/
theorem authenticateResponse_webauthn_signature {Key Cid : Type}
    (env : Collaborators Key Cid) (response clientData : Bytes) (keyHandle appID : GoString)
    (N : Nat) (hlen : response.length = 5 + N) (hwf : wfBytes response) :
    ∃ r : AuthenticateResponse,
      authenticateResponse env u2fStatusNoError response clientData keyHandle appID true none
        = Exec.returns (some r, none) ∧
      r.SignatureData = StdEncoding.EncodeToString (response.drop 5) ∧
      StdEncoding.DecodeString r.SignatureData = (response.drop 5, none) ∧
      (response.drop 5).length = N ∧
      r.ClientData = websafeEncode clientData ∧
      r.KeyHandle = keyHandle := by
  have h5 : ¬ response.length < 5 := by omega
  refine ⟨_, by simp only [authenticateResponse, h5, if_true, if_false]; rfl, rfl, ?_, ?_,
    rfl, rfl⟩
  · exact std_decode_encode _ (wfBytes_drop 5 hwf)
  · rw [List.length_drop]; omega

/-- A concrete run of C9 on the response of the scripted device: the
signature is its last 3 bytes. -/
theorem authenticateResponse_webauthn_signature_witness :
    [1, 0, 0, 0, 7, 48, 6, 2].length = 5 + 3 ∧ wfBytes [1, 0, 0, 0, 7, 48, 6, 2] ∧
    ∃ r : AuthenticateResponse,
      authenticateResponse scriptedEnv u2fStatusNoError [1, 0, 0, 0, 7, 48, 6, 2] (str "cd")
          (str "YWJj") (str "https://example.com") true none = Exec.returns (some r, none) ∧
      r.SignatureData = StdEncoding.EncodeToString [48, 6, 2] ∧
      StdEncoding.DecodeString r.SignatureData = ([48, 6, 2], none) ∧
      [48, 6, 2].length = 3 ∧
      r.ClientData = websafeEncode (str "cd") ∧
      r.KeyHandle = str "YWJj" :=
  ⟨by decide, by decide,
   authenticateResponse_webauthn_signature scriptedEnv [1, 0, 0, 0, 7, 48, 6, 2] (str "cd")
     (str "YWJj") (str "https://example.com") 3 (by decide) (by decide)⟩

/-- C10: legacy-mode round trip: for every response byte string `R`, the
empty one included, with no transport error and the success status,
URL-safe base64 decoding of the SignatureData that `authenticateResponse`
produces succeeds and gives `R`. -/
theorem authenticateResponse_legacy_roundtrip {Key Cid : Type} (env : Collaborators Key Cid)
    (R clientData : Bytes) (keyHandle appID : GoString) (hwf : wfBytes R) :
    ∃ r : AuthenticateResponse,
      authenticateResponse env u2fStatusNoError R clientData keyHandle appID false none
        = Exec.returns (some r, none) ∧
      websafeDecode r.SignatureData = (R, none) :=
  ⟨_, rfl, websafeDecode_websafeEncode R hwf⟩

/-- Concrete runs of C10: the response of the scripted device and the
empty response. -/
theorem authenticateResponse_legacy_roundtrip_witness :
    wfBytes [1, 0, 0, 0, 7, 48, 6, 2] ∧
    (∃ r : AuthenticateResponse,
      authenticateResponse scriptedEnv u2fStatusNoError [1, 0, 0, 0, 7, 48, 6, 2] (str "cd")
          (str "YWJj") (str "https://example.com") false none = Exec.returns (some r, none) ∧
      websafeDecode r.SignatureData = ([1, 0, 0, 0, 7, 48, 6, 2], none)) ∧
    (∃ r : AuthenticateResponse,
      authenticateResponse scriptedEnv u2fStatusNoError [] (str "cd")
          (str "YWJj") (str "https://example.com") false none = Exec.returns (some r, none) ∧
      websafeDecode r.SignatureData = ([], none)) :=
  ⟨by decide,
   authenticateResponse_legacy_roundtrip scriptedEnv [1, 0, 0, 0, 7, 48, 6, 2] (str "cd")
     (str "YWJj") (str "https://example.com") (by decide),
   authenticateResponse_legacy_roundtrip scriptedEnv [] (str "cd")
     (str "YWJj") (str "https://example.com") wfBytes_nil⟩

/-! ## Lemmas for the orchestration -/

/-- The bytes of a quantum are byte values. -/
theorem quantumBytes_wf (val n : Nat) : wfBytes (quantumBytes val n) := by
  intro b hb
  have hb' := List.mem_of_mem_take hb
  simp only [List.mem_cons, List.mem_singleton, List.not_mem_nil, or_false] at hb'
  omega

/-- What the request builder did when it returns a nil error: each stage
succeeded and the payload is the concatenation of the four parts. -/
theorem authenticateRequest_success_inv {Key Cid : Type} (env : Collaborators Key Cid)
    (req : AuthenticateRequest Key) (clientJson payload : Bytes)
    (h : authenticateRequest env req = (clientJson, payload, none)) :
    ∃ (cid : Cid) (kh : Bytes),
      env.channelIdPublicKey req.ChannelIdPublicKey req.ChannelIdUnused = (cid, none) ∧
      websafeDecode req.KeyHandle = (kh, none) ∧
      env.jsonMarshal
        { Typ := if req.WebAuthn then str "webauthn.get" else str "navigator.id.getAssertion"
          Challenge := req.Challenge
          Origin := req.Facet
          ChannelIdPublicKey := cid } = (clientJson, none) ∧
      payload = sha256 clientJson ++ sha256 req.AppId ++ [kh.length % 256] ++ kh := by
  rcases hc : env.channelIdPublicKey req.ChannelIdPublicKey req.ChannelIdUnused with ⟨cid, ce⟩
  cases ce with
  | some e => simp [authenticateRequest, hc] at h
  | none =>
    rcases hk : websafeDecode req.KeyHandle with ⟨kh, ke⟩
    cases ke with
    | some e => simp [authenticateRequest, hc, hk] at h
    | none =>
      rcases hj : env.jsonMarshal
          { Typ := if req.WebAuthn then str "webauthn.get" else str "navigator.id.getAssertion"
            Challenge := req.Challenge
            Origin := req.Facet
            ChannelIdPublicKey := cid } with ⟨cj, je⟩
      cases je with
      | some e => simp [authenticateRequest, hc, hk, hj] at h
      | none =>
        have hres := authenticateRequest_ok env req cid kh cj hc hk hj
        rw [hres] at h
        simp only [Prod.mk.injEq, and_true] at h
        obtain ⟨h1, h2⟩ := h
        subst h1
        exact ⟨cid, kh, rfl, rfl, hj, h2.symm⟩

/-- The response returned on success carries the URL-safe base64 of the
client data, in either mode. -/
theorem authenticateResponse_clientData {Key Cid : Type} (env : Collaborators Key Cid)
    (status : Nat) (response clientData : Bytes) (keyHandle appID : GoString) (webAuthn : Bool)
    (err : Option GoError) (r : AuthenticateResponse)
    (h : authenticateResponse env status response clientData keyHandle appID webAuthn err
      = Exec.returns (some r, none)) :
    r.ClientData = websafeEncode clientData := by
  cases err with
  | some t => simp [authenticateResponse] at h
  | none =>
    by_cases hs : status = u2fStatusNoError
    · cases webAuthn with
      | true =>
        by_cases h5 : response.length < 5
        · simp [authenticateResponse, hs, h5] at h
        · simp only [authenticateResponse, hs, h5, if_true, if_false,
            Exec.returns.injEq, Prod.mk.injEq, Option.some.injEq, and_true] at h
          rw [← h]
      | false =>
        simp only [authenticateResponse, hs, if_true, Bool.false_eq_true, if_false,
          Exec.returns.injEq, Prod.mk.injEq, Option.some.injEq, and_true] at h
        rw [← h]
    · simp [authenticateResponse, hs] at h

/-! ## The check-only flag and the transport call -/

/-- C11: the CheckOnly flag is orthogonal to the payload: two requests that
agree on every field other than CheckOnly get from `authenticateRequest`
the same client data JSON, the same payload bytes and the same error. -/
theorem authenticateRequest_checkOnly_orthogonal {Key Cid : Type} (env : Collaborators Key Cid)
    (req1 req2 : AuthenticateRequest Key)
    (hChallenge : req1.Challenge = req2.Challenge)
    (hAppId : req1.AppId = req2.AppId)
    (hKeyHandle : req1.KeyHandle = req2.KeyHandle)
    (hFacet : req1.Facet = req2.Facet)
    (hKey : req1.ChannelIdPublicKey = req2.ChannelIdPublicKey)
    (hUnused : req1.ChannelIdUnused = req2.ChannelIdUnused)
    (hWebAuthn : req1.WebAuthn = req2.WebAuthn) :
    authenticateRequest env req1 = authenticateRequest env req2 := by
  simp only [authenticateRequest, hChallenge, hAppId, hKeyHandle, hFacet, hKey, hUnused,
    hWebAuthn]

/-- A concrete run of C11: the worked example and its check-only variant
differ in CheckOnly and get the same triple. -/
theorem authenticateRequest_checkOnly_orthogonal_witness :
    exampleRequest.CheckOnly ≠ checkOnlyRequest.CheckOnly ∧
    authenticateRequest scriptedEnv exampleRequest
      = authenticateRequest scriptedEnv checkOnlyRequest :=
  ⟨by decide,
   authenticateRequest_checkOnly_orthogonal scriptedEnv exampleRequest checkOnlyRequest
     rfl rfl rfl rfl rfl rfl rfl⟩

/-- C12: when `authenticateRequest` succeeds with client data `c` and payload
`p`, `Authenticate` calls the transport exactly once, with the command
`u2fCommandAuthenticate`, the modifier `u2fAuthCheckOnly` if CheckOnly is
set and `u2fAuthEnforce` otherwise, the second parameter 0 and the payload
`p`, and its result is `authenticateResponse` applied to the status, bytes
and error of the transport, to `c` and to the KeyHandle, AppId and WebAuthn
fields of the request. -/
theorem Authenticate_single_transport_call {Key Cid : Type} (env : Collaborators Key Cid)
    (dev : HidDevice) (req : AuthenticateRequest Key) (c p : Bytes)
    (hreq : authenticateRequest env req = (c, p, none)) :
    (Authenticate env dev req).2 =
      [{ command := env.u2fCommandAuthenticate
         modifier := if req.CheckOnly then env.u2fAuthCheckOnly else env.u2fAuthEnforce
         param2 := 0
         payload := p }] ∧
    (Authenticate env dev req).1 =
      authenticateResponse env
        (dev.SendAPDU env.u2fCommandAuthenticate
          (if req.CheckOnly then env.u2fAuthCheckOnly else env.u2fAuthEnforce) 0 p).1
        (dev.SendAPDU env.u2fCommandAuthenticate
          (if req.CheckOnly then env.u2fAuthCheckOnly else env.u2fAuthEnforce) 0 p).2.1
        c req.KeyHandle req.AppId req.WebAuthn
        (dev.SendAPDU env.u2fCommandAuthenticate
          (if req.CheckOnly then env.u2fAuthCheckOnly else env.u2fAuthEnforce) 0 p).2.2 := by
  constructor <;> simp only [Authenticate, hreq]

/-- Concrete runs of C12: the worked example is sent once with the enforce
modifier, its check-only variant once with the check-only modifier, both
with the same payload. -/
theorem Authenticate_single_transport_call_witness :
    ∃ c p : Bytes,
      authenticateRequest scriptedEnv exampleRequest = (c, p, none) ∧
      (Authenticate scriptedEnv scriptedDevice exampleRequest).2
        = [{ command := 2, modifier := 3, param2 := 0, payload := p }] ∧
      (Authenticate scriptedEnv scriptedDevice checkOnlyRequest).2
        = [{ command := 2, modifier := 7, param2 := 0, payload := p }] ∧
      (Authenticate scriptedEnv scriptedDevice exampleRequest).1
        = authenticateResponse scriptedEnv u2fStatusNoError [1, 0, 0, 0, 7, 48, 6, 2] c
            (str "YWJj") (str "https://example.com") false none :=
  ⟨_, _, rfl,
   (Authenticate_single_transport_call scriptedEnv scriptedDevice exampleRequest _ _ rfl).1,
   (Authenticate_single_transport_call scriptedEnv scriptedDevice checkOnlyRequest _ _ rfl).1,
   (Authenticate_single_transport_call scriptedEnv scriptedDevice exampleRequest _ _ rfl).2⟩

/-- C18: when `authenticateRequest` returns an error `e`, `Authenticate`
returns a nil response with `e` and makes no call of the transport. -/
theorem Authenticate_request_error {Key Cid : Type} (env : Collaborators Key Cid)
    (dev : HidDevice) (req : AuthenticateRequest Key) (e : GoError)
    (herr : (authenticateRequest env req).2.2 = some e) :
    Authenticate env dev req = (Exec.returns (none, some e), []) := by
  rcases hreq : authenticateRequest env req with ⟨c, p, rerr⟩
  rw [hreq] at herr
  simp only at herr
  subst herr
  simp only [Authenticate, hreq]

/-- Concrete runs of C18: a key handle that does not decode, and a refused
channel id. -/
theorem Authenticate_request_error_witness :
    Authenticate scriptedEnv scriptedDevice badKeyHandleRequest
      = (Exec.returns
          (none, some (GoError.errorf (str "base64 key handle: %s") GoError.corruptInput)),
         []) ∧
    Authenticate refusingEnv scriptedDevice conflictRequest
      = (Exec.returns (none, some (GoError.other (str "channel id conflict"))), []) :=
  ⟨Authenticate_request_error scriptedEnv scriptedDevice badKeyHandleRequest _ (by decide),
   Authenticate_request_error refusingEnv scriptedDevice conflictRequest _ (by decide)⟩

/-! ## Lemmas on decoded key handles -/

/-- The quanta of a decoding are byte values. -/
theorem decodeQuanta_wf (e : Encoding) :
    ∀ (cs : List Nat) (bs : Bytes), e.decodeQuanta cs = some bs → wfBytes bs
  | [], bs, h => by
      simp only [Encoding.decodeQuanta, Option.some.injEq] at h
      subst h
      exact wfBytes_nil
  | [_], bs, h => by simp [Encoding.decodeQuanta] at h
  | [c0, c1], bs, h => by
      simp only [Encoding.decodeQuanta] at h
      split at h
      · simp only [Option.some.injEq] at h
        subst h
        exact quantumBytes_wf _ _
      · cases h
  | [c0, c1, c2], bs, h => by
      simp only [Encoding.decodeQuanta] at h
      split at h
      · simp only [Option.some.injEq] at h
        subst h
        exact quantumBytes_wf _ _
      · cases h
  | c0 :: c1 :: c2 :: c3 :: rest, bs, h => by
      simp only [Encoding.decodeQuanta] at h
      split at h
      · split at h
        · split at h
          · cases hr : e.decodeQuanta rest with
            | none => simp [hr] at h
            | some t =>
              simp only [hr, Option.map_some', Option.some.injEq] at h
              subst h
              exact wfBytes_append.2 ⟨quantumBytes_wf _ _, decodeQuanta_wf e rest t hr⟩
          · split at h
            · simp only [Option.some.injEq] at h
              subst h
              exact quantumBytes_wf _ _
            · cases h
        · split at h
          · simp only [Option.some.injEq] at h
            subst h
            exact quantumBytes_wf _ _
          · cases h
      · cases h

/-- A decoded key handle is a byte string. -/
theorem websafeDecode_wf (s : GoString) (kh : Bytes) (h : websafeDecode s = (kh, none)) :
    wfBytes kh := by
  simp only [websafeDecode, Encoding.DecodeString] at h
  split at h
  · rename_i bs hq
    simp only [Prod.mk.injEq, and_true] at h
    subst h
    exact decodeQuanta_wf _ _ _ hq
  · simp at h

/-! ## The request builder: client data and errors -/

/-- C13: when `authenticateRequest` succeeds, the client data JSON it returns
is the serialisation of the record with Type `navigator.id.getAssertion`
(WebAuthn unset) or `webauthn.get` (WebAuthn set), Challenge the challenge
of the request, Origin its facet, and ChannelIdPublicKey the resolved
channel id. -/
theorem authenticateRequest_clientData_json {Key Cid : Type} (env : Collaborators Key Cid)
    (req : AuthenticateRequest Key) (clientJson payload : Bytes)
    (h : authenticateRequest env req = (clientJson, payload, none)) :
    ∃ (cid : Cid) (client : clientData Cid),
      env.channelIdPublicKey req.ChannelIdPublicKey req.ChannelIdUnused = (cid, none) ∧
      env.jsonMarshal client = (clientJson, none) ∧
      (req.WebAuthn = false → client.Typ = str "navigator.id.getAssertion") ∧
      (req.WebAuthn = true → client.Typ = str "webauthn.get") ∧
      client.Challenge = req.Challenge ∧
      client.Origin = req.Facet ∧
      client.ChannelIdPublicKey = cid := by
  obtain ⟨cid, kh, hc, _, hj, _⟩ := authenticateRequest_success_inv env req clientJson payload h
  refine ⟨cid, _, hc, hj, ?_, ?_, rfl, rfl, rfl⟩
  · intro hw; simp [hw]
  · intro hw; simp [hw]

/-- A concrete run of C13 on the worked example, in legacy mode. -/
theorem authenticateRequest_clientData_json_witness :
    ∃ (payload : Bytes) (client : clientData Unit),
      authenticateRequest scriptedEnv exampleRequest = (exampleClientJson, payload, none) ∧
      scriptedEnv.jsonMarshal client = (exampleClientJson, none) ∧
      client.Typ = str "navigator.id.getAssertion" ∧
      client.Challenge = str "e0" ∧
      client.Origin = str "https://example.com" := by
  have hres := authenticateRequest_ok scriptedEnv exampleRequest () (str "abc")
    exampleClientJson rfl (by decide) (by decide)
  obtain ⟨_, client, _, hj, hlegacy, _, hch, ho, _⟩ :=
    authenticateRequest_clientData_json scriptedEnv exampleRequest exampleClientJson _ hres
  exact ⟨_, client, hres, hj, hlegacy rfl, hch, ho⟩

/-- C14: when the channel id resolves and the key handle does not decode as
URL-safe base64, `authenticateRequest` fails with the error
`fmt.Errorf("base64 key handle: %s", err)` built from the decode error
`err`, whose format carries the text `key handle`, and returns neither
client data bytes nor payload bytes. -/
theorem authenticateRequest_keyHandle_error {Key Cid : Type} (env : Collaborators Key Cid)
    (req : AuthenticateRequest Key) (cid : Cid) (partialBytes : Bytes) (cause : GoError)
    (hcid : env.channelIdPublicKey req.ChannelIdPublicKey req.ChannelIdUnused = (cid, none))
    (hkh : websafeDecode req.KeyHandle = (partialBytes, some cause)) :
    authenticateRequest env req
      = ([], [], some (GoError.errorf (str "base64 key handle: %s") cause)) ∧
    List.IsInfix (str "key handle") (str "base64 key handle: %s") := by
  refine ⟨by simp only [authenticateRequest, hcid, hkh], ⟨str "base64 ", str ": %s", ?_⟩⟩
  decide

/-- A concrete run of C14: the key handle `%%%`. -/
theorem authenticateRequest_keyHandle_error_witness :
    websafeDecode badKeyHandleRequest.KeyHandle = ([], some GoError.corruptInput) ∧
    authenticateRequest scriptedEnv badKeyHandleRequest
      = ([], [], some (GoError.errorf (str "base64 key handle: %s") GoError.corruptInput)) :=
  ⟨by decide,
   (authenticateRequest_keyHandle_error scriptedEnv badKeyHandleRequest () []
     GoError.corruptInput rfl (by decide)).1⟩

/-- C15: when the channel-id helper returns an error `e`,
`authenticateRequest` returns no client data, no payload and `e` itself,
whether or not the key handle is valid base64. -/
theorem authenticateRequest_channelId_error {Key Cid : Type} (env : Collaborators Key Cid)
    (req : AuthenticateRequest Key) (cid : Cid) (e : GoError)
    (hcid : env.channelIdPublicKey req.ChannelIdPublicKey req.ChannelIdUnused = (cid, some e)) :
    authenticateRequest env req = ([], [], some e) := by
  simp only [authenticateRequest, hcid]

/-- Concrete runs of C15: the refused channel id with a valid key handle and
with a key handle that does not decode. -/
theorem authenticateRequest_channelId_error_witness :
    (websafeDecode conflictRequest.KeyHandle).2 = none ∧
    (websafeDecode conflictBadKeyHandleRequest.KeyHandle).2 = some GoError.corruptInput ∧
    authenticateRequest refusingEnv conflictRequest
      = ([], [], some (GoError.other (str "channel id conflict"))) ∧
    authenticateRequest refusingEnv conflictBadKeyHandleRequest
      = ([], [], some (GoError.other (str "channel id conflict"))) :=
  ⟨by decide, by decide,
   authenticateRequest_channelId_error refusingEnv conflictRequest () _ rfl,
   authenticateRequest_channelId_error refusingEnv conflictBadKeyHandleRequest () _ rfl⟩

/-! ## Round trips -/

/-- C16, as stated, fails: the key handle `YR` is accepted by
`authenticateRequest`, decodes to the byte `a`, and re-encoding that byte
gives `YQ`, not `YR`. -/
theorem keyHandle_reencode_counterexample :
    (authenticateRequest scriptedEnv nonCanonicalRequest).2.2 = none ∧
    websafeDecode nonCanonicalRequest.KeyHandle = (str "a", none) ∧
    websafeEncode (str "a") = str "YQ" ∧
    websafeEncode (websafeDecode nonCanonicalRequest.KeyHandle).1
      ≠ nonCanonicalRequest.KeyHandle := by
  refine ⟨by decide, by decide, by decide, by decide⟩

/-- C16, amended: for every key handle string that `websafeDecode` accepts,
re-encoding the decoded bytes gives a string that decodes to the same
bytes, and it gives back the original string exactly when the original is
itself the encoding of a byte string. -/
theorem keyHandle_reencode_canonical (keyHandle : GoString) (kh : Bytes)
    (hdec : websafeDecode keyHandle = (kh, none)) :
    websafeDecode (websafeEncode kh) = (kh, none) ∧
    (websafeEncode kh = keyHandle ↔ ∃ bs : Bytes, wfBytes bs ∧ websafeEncode bs = keyHandle) := by
  have hwf := websafeDecode_wf keyHandle kh hdec
  refine ⟨websafeDecode_websafeEncode kh hwf, ⟨fun h => ⟨kh, hwf, h⟩, ?_⟩⟩
  rintro ⟨bs, hbs, henc⟩
  have h1 := websafeDecode_websafeEncode bs hbs
  rw [henc, hdec] at h1
  simp only [Prod.mk.injEq, and_true] at h1
  rw [h1]
  exact henc

/-- Concrete runs of the amended C16: the key handle `YWJj` of the worked
example is given back, and the re-encoding `YQ` of the key handle `YR`
decodes to the same byte. -/
theorem keyHandle_reencode_canonical_witness :
    websafeDecode (str "YWJj") = (str "abc", none) ∧
    websafeEncode (str "abc") = str "YWJj" ∧
    websafeDecode (str "YR") = (str "a", none) ∧
    websafeDecode (websafeEncode (str "a")) = (str "a", none) :=
  ⟨by decide,
   (keyHandle_reencode_canonical (str "YWJj") (str "abc") (by decide)).2.2
     ⟨str "abc", by decide, by decide⟩,
   by decide,
   (keyHandle_reencode_canonical (str "YR") (str "a") (by decide)).1⟩

/-- C17: WebAuthn mode loses and duplicates no device bytes: for a response
of at least 5 bytes, with the success status and no transport error, the
AuthenticatorData and the SignatureData both decode as standard base64,
the decoded AuthenticatorData has at least 5 bytes, its last 5 bytes are
the first 5 bytes of the response, the decoded SignatureData is the rest of
the response, and the last 5 bytes of the first followed by the second are
the raw response. -/
theorem authenticateResponse_webauthn_lossless {Key Cid : Type} (env : Collaborators Key Cid)
    (response clientData : Bytes) (keyHandle appID : GoString)
    (hlen : 5 ≤ response.length) (hwf : wfBytes response) :
    ∃ (r : AuthenticateResponse) (authData sig : Bytes),
      authenticateResponse env u2fStatusNoError response clientData keyHandle appID true none
        = Exec.returns (some r, none) ∧
      StdEncoding.DecodeString r.AuthenticatorData = (authData, none) ∧
      StdEncoding.DecodeString r.SignatureData = (sig, none) ∧
      5 ≤ authData.length ∧
      (authData.drop (authData.length - 5)).length = 5 ∧
      authData.drop (authData.length - 5) = response.take 5 ∧
      sig = response.drop 5 ∧
      authData.drop (authData.length - 5) ++ sig = response := by
  have h5 : ¬ response.length < 5 := by omega
  have h37 : (sha256 appID ++ response.take 5).length = 37 := by
    rw [List.length_append, sha256_length, List.length_take]
    omega
  have hwf37 : wfBytes (sha256 appID ++ response.take 5) :=
    wfBytes_append.2 ⟨sha256_wf _, wfBytes_take 5 hwf⟩
  refine ⟨_, sha256 appID ++ response.take 5, response.drop 5,
    by simp only [authenticateResponse, h5, if_true, if_false]; rfl,
    std_decode_encode _ hwf37, std_decode_encode _ (wfBytes_drop 5 hwf), ?_, ?_, ?_, rfl, ?_⟩
  · rw [h37]
    decide
  · rw [h37, List.drop_left' (sha256_length appID), List.length_take]
    omega
  · rw [h37, List.drop_left' (sha256_length appID)]
  · rw [h37, List.drop_left' (sha256_length appID)]
    exact List.take_append_drop 5 response

/-- A concrete run of C17 on the response of the scripted device. -/
theorem authenticateResponse_webauthn_lossless_witness :
    ∃ (r : AuthenticateResponse) (authData sig : Bytes),
      authenticateResponse scriptedEnv u2fStatusNoError [1, 0, 0, 0, 7, 48, 6, 2] (str "cd")
          (str "YWJj") (str "https://example.com") true none = Exec.returns (some r, none) ∧
      StdEncoding.DecodeString r.AuthenticatorData = (authData, none) ∧
      StdEncoding.DecodeString r.SignatureData = (sig, none) ∧
      5 ≤ authData.length ∧
      (authData.drop (authData.length - 5)).length = 5 ∧
      authData.drop (authData.length - 5) = [1, 0, 0, 0, 7] ∧
      sig = [48, 6, 2] ∧
      authData.drop (authData.length - 5) ++ sig = [1, 0, 0, 0, 7, 48, 6, 2] :=
  authenticateResponse_webauthn_lossless scriptedEnv [1, 0, 0, 0, 7, 48, 6, 2] (str "cd")
    (str "YWJj") (str "https://example.com") (by decide) (by decide)

/-- C19: end-to-end binding of the client data: whenever `Authenticate`
returns a response with a nil error, in either mode, it made one transport
call, URL-safe base64 decoding of the ClientData of the response gives the
client data JSON of the request builder, and the SHA-256 digest of that
JSON is bytes `[0:32]` of the payload that was sent.  The client data JSON
is assumed to be a byte string, as every Go byte slice is. -/
theorem Authenticate_clientData_binding {Key Cid : Type} (env : Collaborators Key Cid)
    (dev : HidDevice) (req : AuthenticateRequest Key) (r : AuthenticateResponse)
    (hjson : wfBytes (authenticateRequest env req).1)
    (hret : (Authenticate env dev req).1 = Exec.returns (some r, none)) :
    ∃ (clientJson : Bytes) (call : APDUCall),
      clientJson = (authenticateRequest env req).1 ∧
      (Authenticate env dev req).2 = [call] ∧
      websafeDecode r.ClientData = (clientJson, none) ∧
      call.payload.take 32 = sha256 clientJson := by
  rcases hreq : authenticateRequest env req with ⟨cj, p, rerr⟩
  rw [hreq] at hjson
  cases rerr with
  | some t => simp [Authenticate, hreq] at hret
  | none =>
    obtain ⟨cid, kh, _, _, _, hp⟩ := authenticateRequest_success_inv env req cj p hreq
    simp only [Authenticate, hreq] at hret ⊢
    have hcd := authenticateResponse_clientData env _ _ _ _ _ _ _ r hret
    have hs := payload_slices (sha256 cj) (sha256 req.AppId) kh (kh.length % 256)
      (sha256_length _) (sha256_length _)
    refine ⟨cj, _, rfl, rfl, ?_, ?_⟩
    · rw [hcd]
      exact websafeDecode_websafeEncode cj hjson
    · show p.take 32 = sha256 cj
      rw [hp]
      exact hs.2.1

/-- A concrete run of C19: the worked example against the scripted device. -/
theorem Authenticate_clientData_binding_witness :
    wfBytes (authenticateRequest scriptedEnv exampleRequest).1 ∧
    ∃ (r : AuthenticateResponse) (call : APDUCall),
      (Authenticate scriptedEnv scriptedDevice exampleRequest).1 = Exec.returns (some r, none) ∧
      (Authenticate scriptedEnv scriptedDevice exampleRequest).2 = [call] ∧
      websafeDecode r.ClientData = (exampleClientJson, none) ∧
      call.payload.take 32 = sha256 exampleClientJson := by
  have hwf : wfBytes (authenticateRequest scriptedEnv exampleRequest).1 := by decide
  have hret : (Authenticate scriptedEnv scriptedDevice exampleRequest).1
      = Exec.returns
          (some { KeyHandle := str "YWJj"
                  ClientData := websafeEncode exampleClientJson
                  SignatureData := websafeEncode [1, 0, 0, 0, 7, 48, 6, 2]
                  AuthenticatorData := [] }, none) := rfl
  obtain ⟨cj, call, hcj, hcall, hdec, hsha⟩ :=
    Authenticate_clientData_binding scriptedEnv scriptedDevice exampleRequest _ hwf hret
  have hcj' : cj = exampleClientJson := by rw [hcj]; decide
  subst hcj'
  exact ⟨hwf, _, call, hret, hcall, hdec, hsha⟩

end U2fhost
